import Mathlib

/-!
Shallow embedding of `prefect_gcp/credentials.py`.

The module defines a pydantic `Block` subclass `GcpCredentials` with fields
`service_account_file`, `service_account_info`, `project`, `infer_project`,
three validators, a credential resolver
(`get_credentials_from_service_account`), a token minter (`get_access_token`)
and three vendor-client factories guarded by the `_raise_help_msg` decorator.

External effects (the filesystem, the ambient application-default credentials,
the token endpoint, and which optional vendor packages are importable) are
modelled as explicit environment records.  Python truthiness, which the code
relies on (`if self.service_account_info:`, `project or self.project`,
`values.get("infer_project") and values.get("project")`), is modelled by
explicit `pyTruthy*` functions: an absent value and an empty dict / empty
string are falsy, everything else is truthy.  A `pathlib.Path` object is
always truthy, so the file field is truthy exactly when it is not `None`.
-/

namespace PrefectGcp

/-- Parsed service-account key material (the JSON object), as a key/value list.
The vendor SDK treats it as an opaque mapping; the only key the embedded code
observes is `project_id`. -/
abbrev KeyInfo := List (String × String)

/-- Where a credential object came from. -/
inductive CredSource where
  | serviceAccount (info : KeyInfo)
  | applicationDefault
deriving DecidableEq

/-- A `google.oauth2`/`google.auth` credential object, abstracted to the
attributes the embedded code reads: its source material, the scopes it was
constructed with, its (initially unset) access token, and its `project_id`. -/
structure Credentials where
  source : CredSource
  scopes : List String
  token : Option String
  project_id : Option String
deriving DecidableEq

/-- The scope string requested by `get_credentials_from_service_account`. -/
def cloud_platform_scope : String := "https://www.googleapis.com/auth/cloud-platform"

/-- The ambient environment: home directory, filesystem, and what
`google.auth.default()` would return (a credential whose own attribute is
`adcProjectId`, paired with a separately returned project identifier). -/
structure Env where
  home : String
  fileExists : String → Bool
  fileContent : String → KeyInfo
  adcProjectId : Option String
  adcReturnedProject : Option String

/-- `Credentials.from_service_account_info(info, scopes=...)`: build a
service-account credential from parsed key material. -/
def Credentials.from_service_account_info (info : KeyInfo) (scopes : List String) :
    Credentials :=
  { source := CredSource.serviceAccount info
    scopes := scopes
    token := none
    project_id := info.lookup "project_id" }

/-- `Credentials.from_service_account_file(path, scopes=...)`: the SDK reads
and parses the key file, then builds the credential from the parsed info
exactly as `from_service_account_info` does. -/
def Credentials.from_service_account_file (env : Env) (path : String)
    (scopes : List String) : Credentials :=
  Credentials.from_service_account_info (env.fileContent path) scopes

/-- `google.auth.default()`: returns a pair of the ambient credential object
and a project identifier detected alongside it. -/
def google_auth_default (env : Env) : Credentials × Option String :=
  ({ source := CredSource.applicationDefault
     scopes := []
     token := none
     project_id := env.adcProjectId }, env.adcReturnedProject)

/-- Python truthiness of an `Optional[str]`: `None` and `""` are falsy. -/
def pyTruthyStr : Option String → Bool
  | none => false
  | some s => !s.isEmpty

/-- Python truthiness of the `Optional[Dict | Json]` key material: `None` and
an empty mapping are falsy. -/
def pyTruthyInfo : Option KeyInfo → Bool
  | none => false
  | some info => !info.isEmpty

/-- The validated `GcpCredentials` record (the pydantic model's fields).
`service_account_file` holds the already-expanded path, since the field
validator returns `Path(file).expanduser()`. -/
structure GcpCredentials where
  service_account_file : Option String
  service_account_info : Option KeyInfo
  project : Option String
  infer_project : Bool
deriving DecidableEq

/-- The error kinds the validators raise (`ValueError` messages in the code):
`invalidFile` is "The provided path to the service account is invalid",
`conflictSources` is "Only one of service_account_info or service_account_file
can be specified at once", `conflictProject` is "Unable to infer project with
a project already set". -/
inductive ConstructError where
  | invalidFile
  | conflictSources
  | conflictProject
deriving DecidableEq

/-- `Path(p).expanduser()`: replace a leading `~` component by the home
directory; paths not starting with a `~` component are unchanged. -/
def Env.expanduser (env : Env) (p : String) : String :=
  if p = "~" then env.home
  else if "~/".isPrefixOf p then env.home ++ p.drop 1
  else p

/-- Field validator `_check_service_account_file`: `None` passes through;
otherwise expand the user directory and require the file to exist, returning
the expanded path. -/
def checkServiceAccountFile (env : Env) :
    Option String → Except ConstructError (Option String)
  | none => Except.ok none
  | some file =>
    let service_account_file := env.expanduser file
    if env.fileExists service_account_file then Except.ok (some service_account_file)
    else Except.error ConstructError.invalidFile

/-- Root validator `_provide_one_service_account_source`: fires when both
sources are not `None` (the code compares with `is not None`, not
truthiness). -/
def provide_one_service_account_source (values : GcpCredentials) : Bool :=
  values.service_account_info.isSome && values.service_account_file.isSome

/-- Root validator `_cannot_infer_project_with_specified_project`: fires when
`infer_project` and `project` are both truthy (the code tests truthiness, so
an empty-string project does not fire it). -/
def cannot_infer_project_with_specified_project (values : GcpCredentials) : Bool :=
  values.infer_project && pyTruthyStr values.project

/-- Pydantic-v1 construction of the model: field validators run first; post
root validators then run on the `values` dict, from which a field that failed
its own validator is absent (`values.get` returns `None` for it); all raised
errors are collected into one `ValidationError`.  Construction succeeds only
when no validator raised. -/
def construct (env : Env) (file : Option String) (info : Option KeyInfo)
    (project : Option String) (infer_project : Bool) :
    Except (List ConstructError) GcpCredentials :=
  let fieldRes := checkServiceAccountFile env file
  let values : GcpCredentials :=
    { service_account_file := match fieldRes with
        | Except.ok f => f
        | Except.error _ => none
      service_account_info := info
      project := project
      infer_project := infer_project }
  let errs : List ConstructError :=
    (match fieldRes with | Except.error e => [e] | Except.ok _ => [])
    ++ (if provide_one_service_account_source values then [ConstructError.conflictSources] else [])
    ++ (if cannot_infer_project_with_specified_project values then [ConstructError.conflictProject] else [])
  if errs.isEmpty then Except.ok values else Except.error errs

/-- `get_credentials_from_service_account`: truthy inline info wins, else a
present key file, else `google.auth.default()` with the returned project
discarded. -/
def GcpCredentials.get_credentials_from_service_account
    (self : GcpCredentials) (env : Env) : Credentials :=
  if pyTruthyInfo self.service_account_info then
    Credentials.from_service_account_info (self.service_account_info.getD [])
      [cloud_platform_scope]
  else if self.service_account_file.isSome then
    Credentials.from_service_account_file env (self.service_account_file.getD "")
      [cloud_platform_scope]
  else
    (google_auth_default env).fst

/-- `block_initialization`: when `infer_project` is set, resolve credentials
and store their `project_id` into `project`; otherwise do nothing. -/
def GcpCredentials.block_initialization (self : GcpCredentials) (env : Env) :
    GcpCredentials :=
  if self.infer_project then
    let credentials := self.get_credentials_from_service_account env
    { self with project := credentials.project_id }
  else self

/-- The state of the token endpoint at the moment of one refresh call:
`mint c` is the access token the endpoint hands to credential `c` now. -/
structure RefreshWorld where
  mint : Credentials → String

/-- `credentials.refresh(request)`: perform the network round trip and store
the token the endpoint returned. -/
def Credentials.refresh (c : Credentials) (w : RefreshWorld) : Credentials :=
  { c with token := some (w.mint c) }

/-- `get_access_token`: resolve credentials anew, refresh them against the
endpoint (offloaded to a worker thread, then awaited), and return the token
field the refresh just set. -/
def GcpCredentials.get_access_token (self : GcpCredentials) (env : Env)
    (w : RefreshWorld) : Option String :=
  let credentials := self.get_credentials_from_service_account env
  let credentials := credentials.refresh w
  credentials.token

/-- Which optional vendor packages are importable (a missing one leaves the
client class name unbound, so using it raises `NameError`). -/
structure PyEnv where
  cloud_storage_installed : Bool
  bigquery_installed : Bool
  secret_manager_installed : Bool

/-- The vendor client objects, abstracted to the arguments the factories bind
into them. -/
inductive Client where
  | storage (credentials : Credentials) (project : Option String)
  | bigquery (credentials : Credentials) (project : Option String) (location : Option String)
  | secretManager (credentials : Credentials)
deriving DecidableEq

/-- Errors a factory call can surface: the `ImportError` produced by the
`_raise_help_msg` decorator when the vendor class is unbound. -/
inductive ClientError where
  | importError (msg : String)
deriving DecidableEq

/-- A single-quote character, as a string. -/
def singleQuote : String := String.singleton (Char.ofNat 39)

/-- A backtick character, as a string. -/
def backquote : String := String.singleton (Char.ofNat 96)

/-- The message of the `ImportError` raised by `_raise_help_msg(key)`. -/
def help_msg (key : String) : String :=
  "To use prefect_gcp." ++ key ++ ", install prefect-gcp with the " ++
    singleQuote ++ key ++ singleQuote ++ " extra: " ++ backquote ++
    "pip install " ++ singleQuote ++ "prefect_gcp[" ++ key ++ "]" ++
    singleQuote ++ backquote

/-- Python `a or b` on optional strings: `a` when truthy, else `b`. -/
def pyOr (a b : Option String) : Option String :=
  if pyTruthyStr a then a else b

/-- `get_cloud_storage_client`: resolve credentials, let a truthy `project`
argument override the block's project, and build the storage client; with the
package absent, the decorator turns the `NameError` into the help message. -/
def GcpCredentials.get_cloud_storage_client (self : GcpCredentials)
    (penv : PyEnv) (env : Env) (project : Option String) :
    Except ClientError Client :=
  let credentials := self.get_credentials_from_service_account env
  let project := pyOr project self.project
  if penv.cloud_storage_installed then
    Except.ok (Client.storage credentials project)
  else
    Except.error (ClientError.importError (help_msg "cloud_storage"))

/-- `get_bigquery_client`: same project-override rule, plus a location passed
through. -/
def GcpCredentials.get_bigquery_client (self : GcpCredentials)
    (penv : PyEnv) (env : Env) (project : Option String)
    (location : Option String) : Except ClientError Client :=
  let credentials := self.get_credentials_from_service_account env
  let project := pyOr project self.project
  if penv.bigquery_installed then
    Except.ok (Client.bigquery credentials project location)
  else
    Except.error (ClientError.importError (help_msg "bigquery"))

/-- `get_secret_manager_client`: takes no project; binds credentials only. -/
def GcpCredentials.get_secret_manager_client (self : GcpCredentials)
    (penv : PyEnv) (env : Env) : Except ClientError Client :=
  let credentials := self.get_credentials_from_service_account env
  if penv.secret_manager_installed then
    Except.ok (Client.secretManager credentials)
  else
    Except.error (ClientError.importError (help_msg "secret_manager"))

/-- The project a returned client is bound to (the secret-manager client has
none). -/
def Client.boundProject : Client → Option String
  | Client.storage _ p => p
  | Client.bigquery _ p _ => p
  | Client.secretManager _ => none

/-- The credential object a returned client is bound to. -/
def Client.boundCredentials : Client → Credentials
  | Client.storage c _ => c
  | Client.bigquery c _ _ => c
  | Client.secretManager c => c

/-! Concrete fixtures used by witnesses and counterexamples. -/

/-- An environment where every file exists and holds one fixed key. -/
def envT : Env :=
  { home := "/home/u"
    fileExists := fun _ => true
    fileContent := fun _ => [("project_id", "proj-from-file")]
    adcProjectId := some "adc-proj"
    adcReturnedProject := some "alongside-proj" }

/-- An environment where no file exists. -/
def envF : Env :=
  { envT with fileExists := fun _ => false }

/-- All optional vendor packages installed. -/
def penvAll : PyEnv := ⟨true, true, true⟩

/-- No optional vendor package installed. -/
def penvNone : PyEnv := ⟨false, false, false⟩

/-- A validated block whose inline info is the empty mapping. -/
def cfgEmptyInfo : GcpCredentials := ⟨none, some [], none, false⟩

/-- A validated block with non-empty inline info. -/
def cfgInfo1 : GcpCredentials := ⟨none, some [("project_id", "p1")], none, false⟩

/-- A validated block with only a base project set. -/
def cfgProj : GcpCredentials := ⟨none, none, some "base-project", false⟩

/-- C4: when `service_account_file` is set, home-directory expansion is
applied to the path first, and construction fails with the Configuration
Invalid error exactly when the expanded path does not reference an existing
file; on success the stored field is the expanded path. -/
theorem c4_service_account_file_check (env : Env) (fp : String)
    (i : Option KeyInfo) (p : Option String) (b : Bool) :
    ((∃ es, construct env (some fp) i p b = Except.error es ∧
        ConstructError.invalidFile ∈ es)
      ↔ env.fileExists (env.expanduser fp) = false)
    ∧ (∀ c, construct env (some fp) i p b = Except.ok c →
        c.service_account_file = some (env.expanduser fp)) := by
  cases hE : env.fileExists (env.expanduser fp) with
  | false =>
    have hcon : ∃ rest, construct env (some fp) i p b
        = Except.error (ConstructError.invalidFile :: rest) := by
      by_cases h2 : cannot_infer_project_with_specified_project ⟨none, i, p, b⟩
      · exact ⟨[ConstructError.conflictProject], by
          simp [construct, checkServiceAccountFile, hE, h2,
            provide_one_service_account_source]⟩
      · exact ⟨[], by
          simp [construct, checkServiceAccountFile, hE, h2,
            provide_one_service_account_source]⟩
    obtain ⟨rest, hcon⟩ := hcon
    refine ⟨⟨fun _ => rfl, fun _ => ⟨_, hcon, List.mem_cons_self _ _⟩⟩, ?_⟩
    intro c hc
    rw [hcon] at hc
    exact absurd hc (by simp)
  | true =>
    by_cases h1 : provide_one_service_account_source
        ⟨some (env.expanduser fp), i, p, b⟩ <;>
    by_cases h2 : cannot_infer_project_with_specified_project
        ⟨some (env.expanduser fp), i, p, b⟩ <;>
    refine ⟨?_, ?_⟩ <;>
    simp [construct, checkServiceAccountFile, hE, h1, h2]

/-- Witness for C4 at a concrete nonexistent path: construction reports the
Configuration Invalid error. -/
theorem c4_service_account_file_check_witness :
    ∃ es, construct envF (some "~/k.json") none none false = Except.error es ∧
      ConstructError.invalidFile ∈ es :=
  (c4_service_account_file_check envF "~/k.json" none none false).1.mpr rfl

/-- C2 (amended): with both `service_account_file` and `service_account_info`
set (not `None`), construction always fails and no usable object results; the
reported error is the Configuration Conflict whenever the file passes its own
existence check (a nonexistent file is instead reported as Configuration
Invalid, because pydantic removes the failed field from the values the
conflict validator inspects). -/
theorem c2_both_sources_conflict (env : Env) (fp : String) (i : KeyInfo)
    (p : Option String) (b : Bool) :
    (∀ c, construct env (some fp) (some i) p b ≠ Except.ok c)
    ∧ (env.fileExists (env.expanduser fp) = true →
        ∃ es, construct env (some fp) (some i) p b = Except.error es ∧
          ConstructError.conflictSources ∈ es) := by
  constructor
  · intro c hc
    cases hE : env.fileExists (env.expanduser fp) with
    | false =>
      simp [construct, checkServiceAccountFile, hE] at hc
    | true =>
      simp [construct, checkServiceAccountFile, hE,
        provide_one_service_account_source] at hc
  · intro hE
    by_cases h2 : cannot_infer_project_with_specified_project
        ⟨some (env.expanduser fp), some i, p, b⟩
    · refine ⟨[ConstructError.conflictSources, ConstructError.conflictProject],
        ?_, ?_⟩
      · simp [construct, checkServiceAccountFile, hE, h2,
          provide_one_service_account_source]
      · simp
    · refine ⟨[ConstructError.conflictSources], ?_, ?_⟩
      · simp [construct, checkServiceAccountFile, hE, h2,
          provide_one_service_account_source]
      · simp

/-- Counterexample to C2 as stated: with both sources set but the file path
nonexistent, construction fails with the Configuration Invalid error alone —
no Configuration Conflict error is reported. -/
theorem c2_both_sources_counterexample :
    construct envF (some "/missing/key.json")
        (some [("type", "service_account")]) none false
      = Except.error [ConstructError.invalidFile] ∧
    ConstructError.conflictSources ∉ [ConstructError.invalidFile] := by
  constructor
  · rfl
  · decide

/-- Witness for C2 (amended) at a concrete input: both sources set, file
existing, so construction fails with the Configuration Conflict error. -/
theorem c2_both_sources_conflict_witness :
    construct envT (some "key.json") (some [("type", "sa")]) none false
        ≠ Except.ok cfgEmptyInfo ∧
    ∃ es, construct envT (some "key.json") (some [("type", "sa")]) none false
        = Except.error es ∧ ConstructError.conflictSources ∈ es :=
  ⟨(c2_both_sources_conflict envT "key.json" [("type", "sa")] none false).1
      cfgEmptyInfo,
   (c2_both_sources_conflict envT "key.json" [("type", "sa")] none false).2 rfl⟩

/-- C3 (amended): with `infer_project` true and `project` set to a non-empty
string, construction always fails and the collected errors contain the
project Configuration Conflict; a `project` equal to the empty string is
falsy in the validator's truthiness test and escapes the check. -/
theorem c3_infer_project_conflict (env : Env) (f : Option String)
    (i : Option KeyInfo) (p : String) (hp : p ≠ "") :
    (∀ c, construct env f i (some p) true ≠ Except.ok c)
    ∧ ∃ es, construct env f i (some p) true = Except.error es ∧
        ConstructError.conflictProject ∈ es := by
  have hpe : p.isEmpty = false := by
    cases h : p.isEmpty
    · rfl
    · exact absurd ((String.isEmpty_iff p).mp h) hp
  have hct : ∀ x : Option String,
      cannot_infer_project_with_specified_project ⟨x, i, some p, true⟩ = true := by
    intro x
    simp [cannot_infer_project_with_specified_project, pyTruthyStr, hpe]
  constructor
  · intro c hc
    cases f with
    | none =>
      by_cases h1 : provide_one_service_account_source ⟨none, i, some p, true⟩ <;>
        simp [construct, checkServiceAccountFile, h1, hct none] at hc
    | some fp =>
      cases hE : env.fileExists (env.expanduser fp) with
      | false =>
        simp [construct, checkServiceAccountFile, hE] at hc
      | true =>
        by_cases h1 : provide_one_service_account_source
            ⟨some (env.expanduser fp), i, some p, true⟩ <;>
          simp [construct, checkServiceAccountFile, hE, h1, hct _] at hc
  · cases f with
    | none =>
      by_cases h1 : provide_one_service_account_source ⟨none, i, some p, true⟩
      · refine ⟨[ConstructError.conflictSources, ConstructError.conflictProject],
          ?_, ?_⟩
        · simp [construct, checkServiceAccountFile, h1, hct none]
        · simp
      · refine ⟨[ConstructError.conflictProject], ?_, ?_⟩
        · simp [construct, checkServiceAccountFile, h1, hct none]
        · simp
    | some fp =>
      cases hE : env.fileExists (env.expanduser fp) with
      | false =>
        by_cases h1 : provide_one_service_account_source ⟨none, i, some p, true⟩
        · refine ⟨[ConstructError.invalidFile, ConstructError.conflictSources,
            ConstructError.conflictProject], ?_, ?_⟩
          · simp [construct, checkServiceAccountFile, hE, h1, hct none]
          · simp
        · refine ⟨[ConstructError.invalidFile, ConstructError.conflictProject],
            ?_, ?_⟩
          · simp [construct, checkServiceAccountFile, hE, h1, hct none]
          · simp
      | true =>
        by_cases h1 : provide_one_service_account_source
            ⟨some (env.expanduser fp), i, some p, true⟩
        · refine ⟨[ConstructError.conflictSources, ConstructError.conflictProject],
            ?_, ?_⟩
          · simp [construct, checkServiceAccountFile, hE, h1, hct _]
          · simp
        · refine ⟨[ConstructError.conflictProject], ?_, ?_⟩
          · simp [construct, checkServiceAccountFile, hE, h1, hct _]
          · simp

/-- Counterexample to C3 as stated: `infer_project=true` with `project` set to
the empty string passes validation — construction succeeds. -/
theorem c3_infer_project_counterexample :
    construct envT none none (some "") true
      = Except.ok ⟨none, none, some "", true⟩ := by
  rfl

/-- Witness for C3 (amended) at a concrete non-empty project. -/
theorem c3_infer_project_conflict_witness :
    (construct envT none none (some "pp") true ≠ Except.ok cfgEmptyInfo)
    ∧ ∃ es, construct envT none none (some "pp") true = Except.error es ∧
        ConstructError.conflictProject ∈ es :=
  ⟨(c3_infer_project_conflict envT none none "pp" (by decide)).1 cfgEmptyInfo,
   (c3_infer_project_conflict envT none none "pp" (by decide)).2⟩

/-- C1 (amended): credential resolution is first-match-wins with Python
truthiness: non-empty inline info wins and is scoped to the cloud-platform
scope; else a present key file with the same scope; else ambient default
credentials, whose separately returned project identifier is never consulted
(changing it changes nothing). -/
theorem c1_resolution_order (env : Env) (self : GcpCredentials) :
    (∀ info, self.service_account_info = some info → info ≠ [] →
      self.get_credentials_from_service_account env
        = Credentials.from_service_account_info info [cloud_platform_scope]
      ∧ (Credentials.from_service_account_info info [cloud_platform_scope]).scopes
        = [cloud_platform_scope])
    ∧ (pyTruthyInfo self.service_account_info = false →
      ∀ f, self.service_account_file = some f →
        self.get_credentials_from_service_account env
          = Credentials.from_service_account_file env f [cloud_platform_scope])
    ∧ (pyTruthyInfo self.service_account_info = false →
      self.service_account_file = none →
        self.get_credentials_from_service_account env = (google_auth_default env).fst)
    ∧ (∀ pr, self.get_credentials_from_service_account
          { env with adcReturnedProject := pr }
        = self.get_credentials_from_service_account env) := by
  refine ⟨?_, ?_, ?_, ?_⟩
  · intro info hinfo hne
    have htrue : pyTruthyInfo (some info) = true := by simp [pyTruthyInfo, hne]
    simp [GcpCredentials.get_credentials_from_service_account, hinfo, htrue,
      Credentials.from_service_account_info]
  · intro hfalse f hfile
    simp [GcpCredentials.get_credentials_from_service_account, hfalse, hfile]
  · intro hfalse hnone
    simp [GcpCredentials.get_credentials_from_service_account, hfalse, hnone]
  · intro pr
    cases ht : pyTruthyInfo self.service_account_info <;>
      cases hf : self.service_account_file <;>
      simp [GcpCredentials.get_credentials_from_service_account, ht, hf,
        google_auth_default, Credentials.from_service_account_file,
        Credentials.from_service_account_info]

/-- Counterexample to C1 as stated: a validated configuration whose inline
info is present but empty falls through to ambient default credentials
instead of building credentials from the info. -/
theorem c1_resolution_order_counterexample :
    construct envT none (some []) none false = Except.ok cfgEmptyInfo
    ∧ cfgEmptyInfo.get_credentials_from_service_account envT
        ≠ Credentials.from_service_account_info [] [cloud_platform_scope]
    ∧ cfgEmptyInfo.get_credentials_from_service_account envT
        = (google_auth_default envT).fst := by
  refine ⟨rfl, ?_, rfl⟩
  decide

/-- Witness for C1 (amended): a non-empty inline info is used, with the
cloud-platform scope. -/
theorem c1_resolution_order_witness :
    cfgInfo1.get_credentials_from_service_account envT
      = Credentials.from_service_account_info [("project_id", "p1")]
          [cloud_platform_scope]
    ∧ (Credentials.from_service_account_info [("project_id", "p1")]
          [cloud_platform_scope]).scopes = [cloud_platform_scope] :=
  (c1_resolution_order envT cfgInfo1).1 [("project_id", "p1")] rfl (by decide)

/-- C5: each call to the token minter resolves credentials anew and returns
exactly the token minted by the refresh performed during that call, so no
token is cached: two calls against endpoint states that mint different tokens
for the resolved credential return different tokens. -/
theorem c5_fresh_token (env : Env) (w w2 : RefreshWorld)
    (self : GcpCredentials) :
    self.get_access_token env w
      = some (w.mint (self.get_credentials_from_service_account env))
    ∧ (w.mint (self.get_credentials_from_service_account env)
        ≠ w2.mint (self.get_credentials_from_service_account env) →
      self.get_access_token env w ≠ self.get_access_token env w2) := by
  constructor
  · rfl
  · intro hne he
    exact hne (Option.some.inj he)

/-- Witness for C5: with an endpoint minting "tok-a" before expiry and
"tok-b" after, the two calls return the two distinct tokens. -/
theorem c5_fresh_token_witness :
    cfgInfo1.get_access_token envT ⟨fun _ => "tok-a"⟩
      = some (RefreshWorld.mint ⟨fun _ => "tok-a"⟩
          (cfgInfo1.get_credentials_from_service_account envT))
    ∧ cfgInfo1.get_access_token envT ⟨fun _ => "tok-a"⟩
      ≠ cfgInfo1.get_access_token envT ⟨fun _ => "tok-b"⟩ :=
  ⟨(c5_fresh_token envT ⟨fun _ => "tok-a"⟩ ⟨fun _ => "tok-b"⟩ cfgInfo1).1,
   (c5_fresh_token envT ⟨fun _ => "tok-a"⟩ ⟨fun _ => "tok-b"⟩ cfgInfo1).2
     (by decide)⟩

/-- C8: resolving credentials from a non-empty key supplied inline and from
the same key supplied as a file produce equal credential objects, scoped to
the cloud-platform scope. -/
theorem c8_info_file_equivalence (env : Env) (key : KeyInfo) (path : String)
    (p1 p2 : Option String) (b1 b2 : Bool)
    (hk : key ≠ []) (hc : env.fileContent path = key) :
    (GcpCredentials.mk none (some key) p1 b1).get_credentials_from_service_account env
      = (GcpCredentials.mk (some path) none p2 b2).get_credentials_from_service_account env
    ∧ ((GcpCredentials.mk none (some key) p1 b1).get_credentials_from_service_account
        env).scopes = [cloud_platform_scope] := by
  have ht : pyTruthyInfo (some key) = true := by simp [pyTruthyInfo, hk]
  have hn : pyTruthyInfo (none : Option KeyInfo) = false := rfl
  constructor
  · simp [GcpCredentials.get_credentials_from_service_account, ht, hn,
      Credentials.from_service_account_file, hc]
  · simp [GcpCredentials.get_credentials_from_service_account, ht,
      Credentials.from_service_account_info]

/-- Witness for C8 at the fixture environment's key material. -/
theorem c8_info_file_equivalence_witness :
    (GcpCredentials.mk none (some [("project_id", "proj-from-file")]) none
        false).get_credentials_from_service_account envT
      = (GcpCredentials.mk (some "sa.json") none none
        false).get_credentials_from_service_account envT
    ∧ ((GcpCredentials.mk none (some [("project_id", "proj-from-file")]) none
        false).get_credentials_from_service_account envT).scopes
      = [cloud_platform_scope] :=
  c8_info_file_equivalence envT [("project_id", "proj-from-file")] "sa.json"
    none none false false (by decide) rfl

/-- C9: all operations of the record are modelled as pure functions of the
record, matching the source, which never assigns to `self` outside
`block_initialization`; `block_initialization` is the identity when
`infer_project` is false, and when it is true it changes only `project`,
setting it to the resolved credentials' `project_id`. -/
theorem c9_initialization_frame (env : Env) (self : GcpCredentials) :
    (self.infer_project = false → self.block_initialization env = self)
    ∧ (self.infer_project = true →
      (self.block_initialization env).project
        = (self.get_credentials_from_service_account env).project_id
      ∧ (self.block_initialization env).service_account_file
        = self.service_account_file
      ∧ (self.block_initialization env).service_account_info
        = self.service_account_info
      ∧ (self.block_initialization env).infer_project = self.infer_project) := by
  constructor
  · intro h
    simp [GcpCredentials.block_initialization, h]
  · intro h
    simp [GcpCredentials.block_initialization, h]

/-- Witness for C9: a block with `infer_project` true gets its project set to
the resolved (ambient) credentials' project id; with it false, nothing
changes. -/
theorem c9_initialization_frame_witness :
    (cfgProj.block_initialization envT = cfgProj)
    ∧ ((GcpCredentials.mk none none none true).block_initialization envT).project
      = ((GcpCredentials.mk none none none
          true).get_credentials_from_service_account envT).project_id :=
  ⟨(c9_initialization_frame envT cfgProj).1 rfl,
   ((c9_initialization_frame envT (GcpCredentials.mk none none none true)).2
     rfl).1⟩

/-- C6: calling a factory with its vendor package absent fails with the
Missing Optional Dependency error, whose message contains the exact
installable extra for that factory ("cloud_storage", "bigquery",
"secret_manager"). -/
theorem c6_missing_dependency (penv : PyEnv) (env : Env)
    (self : GcpCredentials) (proj loc : Option String) :
    (penv.cloud_storage_installed = false →
      self.get_cloud_storage_client penv env proj
        = Except.error (ClientError.importError (help_msg "cloud_storage"))
      ∧ "cloud_storage".data <:+: (help_msg "cloud_storage").data)
    ∧ (penv.bigquery_installed = false →
      self.get_bigquery_client penv env proj loc
        = Except.error (ClientError.importError (help_msg "bigquery"))
      ∧ "bigquery".data <:+: (help_msg "bigquery").data)
    ∧ (penv.secret_manager_installed = false →
      self.get_secret_manager_client penv env
        = Except.error (ClientError.importError (help_msg "secret_manager"))
      ∧ "secret_manager".data <:+: (help_msg "secret_manager").data) := by
  refine ⟨fun h => ⟨?_, by decide⟩, fun h => ⟨?_, by decide⟩,
    fun h => ⟨?_, by decide⟩⟩
  · simp [GcpCredentials.get_cloud_storage_client, h]
  · simp [GcpCredentials.get_bigquery_client, h]
  · simp [GcpCredentials.get_secret_manager_client, h]

/-- Witness for C6: with no vendor package installed, each factory returns
its help-message error naming its extra. -/
theorem c6_missing_dependency_witness :
    (cfgInfo1.get_cloud_storage_client penvNone envT none
        = Except.error (ClientError.importError (help_msg "cloud_storage"))
      ∧ "cloud_storage".data <:+: (help_msg "cloud_storage").data)
    ∧ (cfgInfo1.get_bigquery_client penvNone envT none none
        = Except.error (ClientError.importError (help_msg "bigquery"))
      ∧ "bigquery".data <:+: (help_msg "bigquery").data)
    ∧ (cfgInfo1.get_secret_manager_client penvNone envT
        = Except.error (ClientError.importError (help_msg "secret_manager"))
      ∧ "secret_manager".data <:+: (help_msg "secret_manager").data) :=
  ⟨(c6_missing_dependency penvNone envT cfgInfo1 none none).1 rfl,
   (c6_missing_dependency penvNone envT cfgInfo1 none none).2.1 rfl,
   (c6_missing_dependency penvNone envT cfgInfo1 none none).2.2 rfl⟩

/-- C7 (amended): a successfully built storage or bigquery client is bound to
the freshly resolved credentials and to the explicit project argument when
that argument is truthy (provided and non-empty), otherwise to the
Configuration's project; an empty-string argument does not override.  The
secret-manager factory takes no project argument and binds credentials
only. -/
theorem c7_effective_project (penv : PyEnv) (env : Env)
    (self : GcpCredentials) (proj loc : Option String) :
    (∀ c, self.get_cloud_storage_client penv env proj = Except.ok c →
      c.boundCredentials = self.get_credentials_from_service_account env
      ∧ (pyTruthyStr proj = true → c.boundProject = proj)
      ∧ (pyTruthyStr proj = false → c.boundProject = self.project))
    ∧ (∀ c, self.get_bigquery_client penv env proj loc = Except.ok c →
      c.boundCredentials = self.get_credentials_from_service_account env
      ∧ (pyTruthyStr proj = true → c.boundProject = proj)
      ∧ (pyTruthyStr proj = false → c.boundProject = self.project))
    ∧ (∀ c, self.get_secret_manager_client penv env = Except.ok c →
      c = Client.secretManager (self.get_credentials_from_service_account env)) := by
  refine ⟨?_, ?_, ?_⟩
  · intro c hc
    cases hI : penv.cloud_storage_installed <;>
      simp [GcpCredentials.get_cloud_storage_client, hI] at hc
    cases ht : pyTruthyStr proj <;>
      simp [← hc, Client.boundCredentials, Client.boundProject, pyOr, ht]
  · intro c hc
    cases hI : penv.bigquery_installed <;>
      simp [GcpCredentials.get_bigquery_client, hI] at hc
    cases ht : pyTruthyStr proj <;>
      simp [← hc, Client.boundCredentials, Client.boundProject, pyOr, ht]
  · intro c hc
    cases hI : penv.secret_manager_installed <;>
      simp [GcpCredentials.get_secret_manager_client, hI] at hc
    exact hc.symm

/-- Counterexample to C7 as stated: an explicit empty-string project argument
is provided, yet the storage client is bound to the Configuration's project
("base-project"), not to the provided empty string. -/
theorem c7_effective_project_counterexample :
    cfgProj.get_cloud_storage_client penvAll envT (some "")
      ≠ Except.ok (Client.storage
          (cfgProj.get_credentials_from_service_account envT) (some ""))
    ∧ cfgProj.get_cloud_storage_client penvAll envT (some "")
      = Except.ok (Client.storage
          (cfgProj.get_credentials_from_service_account envT)
          (some "base-project")) := by
  constructor
  · intro h
    have h2 : (Except.ok (Client.storage
        (cfgProj.get_credentials_from_service_account envT)
        (some "base-project")) : Except ClientError Client)
        = Except.ok (Client.storage
          (cfgProj.get_credentials_from_service_account envT) (some "")) := by
      rw [← h]
      rfl
    simp at h2
  · rfl

/-- Witness for C7 (amended): a truthy explicit project argument overrides
the Configuration's project. -/
theorem c7_effective_project_witness :
    (Client.storage (cfgProj.get_credentials_from_service_account envT)
        (some "override")).boundProject = some "override" :=
  (((c7_effective_project penvAll envT cfgProj (some "override") none).1
    (Client.storage (cfgProj.get_credentials_from_service_account envT)
      (some "override")) rfl).2.1 rfl).trans rfl

/-- C10: an empty-string project argument is falsy in `project or
self.project`, so a successfully built storage or bigquery client is bound to
the Configuration's project instead of the supplied empty string. -/
theorem c10_empty_project_argument (penv : PyEnv) (env : Env)
    (self : GcpCredentials) (loc : Option String) :
    (∀ c, self.get_cloud_storage_client penv env (some "") = Except.ok c →
      c.boundProject = self.project)
    ∧ (∀ c, self.get_bigquery_client penv env (some "") loc = Except.ok c →
      c.boundProject = self.project) := by
  constructor
  · intro c hc
    cases hI : penv.cloud_storage_installed <;>
      simp [GcpCredentials.get_cloud_storage_client, hI] at hc
    simp [← hc, Client.boundProject, pyOr, pyTruthyStr]
    intro h
    exact absurd h (by decide)
  · intro c hc
    cases hI : penv.bigquery_installed <;>
      simp [GcpCredentials.get_bigquery_client, hI] at hc
    simp [← hc, Client.boundProject, pyOr, pyTruthyStr]
    intro h
    exact absurd h (by decide)

/-- Witness for C10: with base project "base-project" and an empty-string
argument, both clients are bound to "base-project". -/
theorem c10_empty_project_argument_witness :
    (Client.storage (cfgProj.get_credentials_from_service_account envT)
        (some "base-project")).boundProject = cfgProj.project
    ∧ (Client.bigquery (cfgProj.get_credentials_from_service_account envT)
        (some "base-project") none).boundProject = cfgProj.project :=
  ⟨(c10_empty_project_argument penvAll envT cfgProj none).1
      (Client.storage (cfgProj.get_credentials_from_service_account envT)
        (some "base-project")) rfl,
   (c10_empty_project_argument penvAll envT cfgProj none).2
      (Client.bigquery (cfgProj.get_credentials_from_service_account envT)
        (some "base-project") none) rfl⟩

end PrefectGcp
